import Mathlib

/-!
Shallow embedding of `packages/compiler-cli/src/ngtsc/annotations/src/component.ts`
(the `ComponentDecoratorHandler` of the two-phase Detect/Analyze/Compile protocol).

External collaborators (`staticallyResolve`, `extractDirectiveMetadata`,
`parseTemplate`, the registry's scope lookup and `compileComponentFromMetadata`)
live outside this file's source; they are abstracted into an `Env` record of
functions, so every theorem quantifies over their behaviour.

JavaScript reference identity of `Map` objects is modelled by an allocation id
carried on every map value (`ExprMap.ref`): two maps are the same runtime object
exactly when they are structurally equal including the id. The single
module-level constant `EMPTY_MAP` of the source carries allocation id 0; a fresh
allocation would carry a distinct id.
-/

namespace NgtscComponent

/-- TypeScript expression nodes, kept opaque except for the one shape the
handler inspects (`ts.isObjectLiteralExpression`) and identifiers, which appear
as decorator arguments in the non-literal error path. -/
inductive Expression where
  | objectLiteral (fields : List (String × Expression))
  | ident (name : String)
  | other (id : Nat)

/-- Result of the external static constant evaluator (`staticallyResolve`):
a literal value or "unknown". Only the `typeof x === 'string'` and
`typeof x === 'boolean'` tests matter to the handler. -/
inductive ResolvedValue where
  | str (s : String)
  | bool (b : Bool)
  | num (n : Int)
  | unknown
  deriving DecidableEq, Repr

/-- A `ts.ClassDeclaration`: an opaque identity plus the two pieces the handler
reads, `node.name!.text` and `node.getSourceFile().fileName`. -/
structure Node where
  id : Nat
  name : String
  fileName : String
  deriving DecidableEq, Repr

/-- A matched decorator: its name and argument list (`args` is
`Expression[] | null` in the source). -/
structure Decorator where
  name : String
  args : Option (List Expression)

/-- A `Map<string, Expression>` value together with its allocation id
(JavaScript reference identity). -/
structure ExprMap where
  ref : Nat
  entries : List (String × Expression)

/-- `const EMPTY_MAP = new Map<string, Expression>();` — the single
module-level map, allocated once at module load (allocation id 0) and shared by
every metadata record the handler produces. -/
def EMPTY_MAP : ExprMap := ⟨0, []⟩

/-- `R3DirectiveMetadata` as far as this handler observes it: the selector
(read at the registration step) plus the remaining directive-level fields,
opaque to this handler and represented by a single token. -/
structure R3DirectiveMetadata where
  selector : Option String
  rest : Nat
  deriving DecidableEq, Repr

/-- Output of the external `parseTemplate`: `errors` is
`ParseError[] | undefined` (each error observed only through `toString()`),
plus the parsed nodes, opaque here. -/
structure ParsedTemplate where
  errors : Option (List String)
  nodes : Nat
  deriving DecidableEq, Repr

/-- `R3ComponentMetadata` as built at the end of `analyze`: the spread of the
directive metadata, the parsed template, `viewQueries`, and the two sibling-set
placeholder maps. -/
structure R3ComponentMetadata where
  selector : Option String
  rest : Nat
  template : ParsedTemplate
  viewQueries : List Nat
  pipes : ExprMap
  directives : ExprMap

/-- Modelled from the spec: the `CompilationScope` returned by
`SelectorScopeRegistry.lookupCompilationScope` (its source file is not part of
this repository slice) — "for a given Declaration, the resolved sibling sets it
is permitted to reference", i.e. exactly the two sibling-set fields. -/
structure CompilationScope where
  directives : ExprMap
  pipes : ExprMap

/-- What `compileComponentFromMetadata` plus the per-compile `ConstantPool`
produce: the definition expression, its type, and the pool's accumulated
statements — all opaque tokens here. -/
structure CodegenResult where
  expression : Nat
  type : Nat
  poolStatements : List Nat
  deriving DecidableEq, Repr

/-- The `CompileResult` record returned by `compile`. -/
structure CompileResult where
  name : String
  initializer : Nat
  statements : List Nat
  type : Nat
  deriving DecidableEq, Repr

/-- The errors `analyze` throws, one constructor per `throw` site of the
source, carrying exactly the data interpolated into the message. The first
five are the spec's ConfigError kind; `templateParse` is its
TemplateParseError kind. -/
inductive AnalyzeError where
  | incorrectArgCount
  | argMustBeLiteral
  | missingTemplate
  | templateNotString (name : String)
  | whitespaceNotBoolean
  | templateParse (msgs : List String)
  deriving DecidableEq, Repr

/-- `Array.prototype.join(', ')` on the stringified parse errors. -/
def joinComma : List String → String
  | [] => ""
  | [s] => s
  | s :: rest => s ++ ", " ++ joinComma rest

/-- The message of each thrown `Error`, exactly as interpolated in the
source. -/
def AnalyzeError.message : AnalyzeError → String
  | .incorrectArgCount => "Incorrect number of arguments to @Component decorator"
  | .argMustBeLiteral => "Decorator argument must be literal."
  | .missingTemplate => "For now, components must directly have a template."
  | .templateNotString n => "Template must statically resolve to a string: " ++ n
  | .whitespaceNotBoolean => "preserveWhitespaces must resolve to a boolean if present"
  | .templateParse msgs => "Errors parsing template: " ++ joinComma msgs

/-- The `ScopeRegistry` selector table: declaration identity to selector,
written by `registerSelector` during pass 1. -/
def Registry := List (Nat × String)

instance : DecidableEq Registry := inferInstanceAs (DecidableEq (List (Nat × String)))

/-- `SelectorScopeRegistry.registerSelector(node, selector)`. -/
def registerSelector (reg : Registry) (node : Node) (selector : String) : Registry :=
  (node.id, selector) :: reg

/-- The selector registered for a declaration, if any. -/
def lookupSelector (reg : Registry) (nodeId : Nat) : Option String :=
  (reg.find? (fun p => p.1 == nodeId)).map Prod.snd

/-- Modelled from the spec: `reflectObjectLiteral` (imported from
`../../metadata`, not in this repository slice) turns an object literal's
properties into a `Map<string, Expression>`; `Map.set` makes the last
occurrence of a duplicate key win. `mapGet` is `map.get(key)` on that map, and
`mapGet … = none` is `!map.has(key)`. -/
def mapGet (fields : List (String × Expression)) (key : String) : Option Expression :=
  (fields.reverse.find? (fun p => p.1 == key)).map Prod.snd

/-- The behaviour of the external collaborators, fixed for one compilation:
the constant evaluator, the base (directive) metadata extractor, the template
parser, the registry's compilation-scope lookup and the code generator. -/
structure Env where
  staticallyResolve : Expression → ResolvedValue
  extractDirectiveMetadata : Node → Decorator → Option R3DirectiveMetadata
  parseTemplate : String → String → Bool → ParsedTemplate
  lookupCompilationScope : Node → Option CompilationScope
  compileComponentFromMetadata : R3ComponentMetadata → CodegenResult

/-- The synthesized template source locator:
`` `${node.getSourceFile().fileName}#${node.name!.text}/template.html` ``. -/
def templateUrl (node : Node) : String :=
  node.fileName ++ "#" ++ node.name ++ "/template.html"

/-- Lines 76–101 of the source: parse the template, fail on parser
diagnostics, register the selector when non-null, and build the metadata
record (template, empty `viewQueries`, both sibling sets set to the shared
`EMPTY_MAP`). -/
def analyzeFromParse (env : Env) (node : Node) (reg : Registry)
    (dm : R3DirectiveMetadata) (templateStr : String) (preserveWhitespaces : Bool) :
    Except AnalyzeError (Option R3ComponentMetadata) × Registry :=
  let template := env.parseTemplate templateStr (templateUrl node) preserveWhitespaces
  match template.errors with
  | some errs => (Except.error (AnalyzeError.templateParse errs), reg)
  | none =>
    let reg' := match dm.selector with
      | some sel => registerSelector reg node sel
      | none => reg
    (Except.ok (some
      { selector := dm.selector
        rest := dm.rest
        template := template
        viewQueries := []
        pipes := EMPTY_MAP
        directives := EMPTY_MAP }), reg')

/-- Lines 67–74 of the source: resolve the optional `preserveWhitespaces`
field — default `false`, error when present but not resolving to a boolean. -/
def resolvePreserveWhitespaces (env : Env) (fields : List (String × Expression)) :
    Except AnalyzeError Bool :=
  match mapGet fields "preserveWhitespaces" with
  | none => Except.ok false
  | some e =>
    match env.staticallyResolve e with
    | ResolvedValue.bool b => Except.ok b
    | _ => Except.error AnalyzeError.whitespaceNotBoolean

/-- The tail of `analyze` from line 67: whitespace option, then parse. -/
def analyzeFromWhitespaces (env : Env) (node : Node) (reg : Registry)
    (dm : R3DirectiveMetadata) (fields : List (String × Expression)) (templateStr : String) :
    Except AnalyzeError (Option R3ComponentMetadata) × Registry :=
  match resolvePreserveWhitespaces env fields with
  | Except.error e => (Except.error e, reg)
  | Except.ok pw => analyzeFromParse env node reg dm templateStr pw

/-- The tail of `analyze` from line 58: require the `template` field, require
it to statically resolve to a string, then continue. -/
def analyzeFromTemplate (env : Env) (node : Node) (reg : Registry)
    (dm : R3DirectiveMetadata) (fields : List (String × Expression)) :
    Except AnalyzeError (Option R3ComponentMetadata) × Registry :=
  match mapGet fields "template" with
  | none => (Except.error AnalyzeError.missingTemplate, reg)
  | some templateExpr =>
    match env.staticallyResolve templateExpr with
    | ResolvedValue.str s => analyzeFromWhitespaces env node reg dm fields s
    | _ => (Except.error (AnalyzeError.templateNotString node.name), reg)

/-- `ComponentDecoratorHandler.analyze` (lines 34–102). A thrown `Error` is an
`Except.error`; the returned `{}` ("no analysis", jit skip) is `Except.ok none`;
`{analysis}` is `Except.ok (some …)`. The registry is threaded explicitly: a
throw leaves it as received. -/
def analyze (env : Env) (node : Node) (dec : Decorator) (reg : Registry) :
    Except AnalyzeError (Option R3ComponentMetadata) × Registry :=
  match dec.args with
  | some (meta :: []) =>
    match meta with
    | Expression.objectLiteral fields =>
      match env.extractDirectiveMetadata node dec with
      | none => (Except.ok none, reg)
      | some dm => analyzeFromTemplate env node reg dm fields
    | _ => (Except.error AnalyzeError.argMustBeLiteral, reg)
  | _ => (Except.error AnalyzeError.incorrectArgCount, reg)

/-- Merging the compilation scope into the analysis:
`analysis = {...analysis, ...scope}` when a scope was found (the scope object
carries exactly the two sibling-set fields), `analysis` unchanged otherwise. -/
def mergeScope (analysis : R3ComponentMetadata) : Option CompilationScope → R3ComponentMetadata
  | some scope => { analysis with pipes := scope.pipes, directives := scope.directives }
  | none => analysis

/-- Packaging of the code generator's output into the `CompileResult`
(lines 118–123). -/
def packageResult (r : CodegenResult) : CompileResult :=
  { name := "ngComponentDef"
    initializer := r.expression
    statements := r.poolStatements
    type := r.type }

/-- `ComponentDecoratorHandler.compile` (lines 104–124): look up the
compilation scope, merge it over the analysis, and delegate to the code
generator with a fresh per-call constant pool (the pool is absorbed into
`compileComponentFromMetadata`'s output). -/
def compile (env : Env) (node : Node) (analysis : R3ComponentMetadata) : CompileResult :=
  let merged := mergeScope analysis (env.lookupCompilationScope node)
  packageResult (env.compileComponentFromMetadata merged)

/-- One analyze→compile run for a declaration, as driven by the external
driver: `compile` runs only when `analyze` produced an analysis. -/
def analyzeThenCompile (env : Env) (node : Node) (dec : Decorator) (reg : Registry) :
    Except AnalyzeError (Option CompileResult) :=
  match (analyze env node dec reg).fst with
  | Except.error e => Except.error e
  | Except.ok none => Except.ok none
  | Except.ok (some m) => Except.ok (some (compile env node m))

/-! ### Concrete sample inputs, used to exercise the theorems -/

/-- Two distinct class declarations. -/
def sampleNodeA : Node := ⟨1, "Foo", "app/foo.ts"⟩

def sampleNodeB : Node := ⟨2, "Bar", "app/bar.ts"⟩

/-- `@Component({template: <expr 10>})`. -/
def sampleDec : Decorator :=
  ⟨"Component", some [Expression.objectLiteral [("template", Expression.other 10)]]⟩

/-- A decorator with no argument list (`args === null`). -/
def decNoArgs : Decorator := ⟨"Component", none⟩

/-- A decorator with two arguments. -/
def decTwoArgs : Decorator := ⟨"Component", some [Expression.other 1, Expression.other 2]⟩

/-- A decorator whose single argument is a variable reference, not an object
literal. -/
def decIdentArg : Decorator := ⟨"Component", some [Expression.ident "cfg"]⟩

/-- A configuration object with no `template` field. -/
def decNoTemplate : Decorator :=
  ⟨"Component", some [Expression.objectLiteral [("styles", Expression.other 1)]]⟩

/-- `template` present but resolving to a number. -/
def decBadTemplate : Decorator :=
  ⟨"Component", some [Expression.objectLiteral [("template", Expression.other 11)]]⟩

/-- `template` plus `preserveWhitespaces` resolving to `true`. -/
def decWsBool : Decorator :=
  ⟨"Component", some [Expression.objectLiteral
    [("template", Expression.other 10), ("preserveWhitespaces", Expression.other 12)]]⟩

/-- `template` plus `preserveWhitespaces: "yes"` (a string, not a boolean). -/
def decWsBad : Decorator :=
  ⟨"Component", some [Expression.objectLiteral
    [("template", Expression.other 10), ("preserveWhitespaces", Expression.other 13)]]⟩

/-- A resolved compilation scope with non-empty sibling sets. -/
def sampleScope : CompilationScope :=
  ⟨⟨5, [("child", Expression.other 21)]⟩, ⟨6, [("upper", Expression.other 22)]⟩⟩

/-- Collaborator behaviour for the samples: expression 10 evaluates to a
template string, 11 to a number, 12 to `true`, 13 to the string "yes"; every
declaration extracts directive metadata with selector `app-foo`; the parser
accepts everything; only declaration 1 belongs to a compilation scope. -/
def sampleEnv : Env where
  staticallyResolve := fun e =>
    match e with
    | Expression.other 10 => ResolvedValue.str "<div></div>"
    | Expression.other 11 => ResolvedValue.num 3
    | Expression.other 12 => ResolvedValue.bool true
    | Expression.other 13 => ResolvedValue.str "yes"
    | _ => ResolvedValue.unknown
  extractDirectiveMetadata := fun _ _ => some ⟨some "app-foo", 7⟩
  parseTemplate := fun _ _ _ => ⟨none, 3⟩
  lookupCompilationScope := fun n => if n.id == 1 then some sampleScope else none
  compileComponentFromMetadata := fun _ => ⟨100, 200, [7, 8]⟩

/-- The analysis `sampleEnv` produces for `sampleDec`. -/
def sampleMeta : R3ComponentMetadata :=
  ⟨some "app-foo", 7, ⟨none, 3⟩, [], EMPTY_MAP, EMPTY_MAP⟩

/-- `sampleEnv` with a base extractor that returns the jit-skip sentinel. -/
def skipEnv : Env :=
  { sampleEnv with extractDirectiveMetadata := fun _ _ => none }

/-- `sampleEnv` with a parser that reports one diagnostic. -/
def parseErrEnv : Env :=
  { sampleEnv with parseTemplate := fun _ _ _ => ⟨some ["unclosed tag div"], 0⟩ }

/-! ### String helper lemmas -/

theorem str_append_assoc (a b c : String) : a ++ b ++ c = a ++ (b ++ c) := by
  obtain ⟨a⟩ := a; obtain ⟨b⟩ := b; obtain ⟨c⟩ := c
  exact congrArg String.mk (List.append_assoc a b c)

theorem str_empty_append (s : String) : "" ++ s = s := by
  obtain ⟨s⟩ := s
  exact congrArg String.mk (List.nil_append s)

/-- Every member of the joined list occurs inside the joined string. -/
theorem joinComma_mem_split (m : String) :
    ∀ l : List String, m ∈ l → ∃ p q, joinComma l = p ++ m ++ q := by
  intro l
  induction l with
  | nil => intro h; cases h
  | cons a rest ih =>
    intro h
    cases rest with
    | nil =>
      rcases List.mem_singleton.mp h with rfl
      refine ⟨"", "", ?_⟩
      rw [str_empty_append]
      show m = m ++ ""
      obtain ⟨m⟩ := m
      exact congrArg String.mk (List.append_nil m).symm
    | cons b t =>
      rcases List.mem_cons.mp h with rfl | hmem
      · refine ⟨"", ", " ++ joinComma (b :: t), ?_⟩
        rw [str_empty_append]
        exact str_append_assoc m ", " (joinComma (b :: t))
      · obtain ⟨p, q, hp⟩ := ih hmem
        refine ⟨a ++ ", " ++ p, q, ?_⟩
        show a ++ ", " ++ joinComma (b :: t) = _
        rw [hp]
        simp only [str_append_assoc]

/-! ### Stage lemmas: shape of a successful analysis -/

theorem analyzeFromParse_ok_shape {env : Env} {node reg dm s pw m}
    (h : (analyzeFromParse env node reg dm s pw).fst = Except.ok (some m)) :
    m.pipes = EMPTY_MAP ∧ m.directives = EMPTY_MAP ∧ m.viewQueries = [] := by
  rcases hE : (env.parseTemplate s (templateUrl node) pw).errors with _ | errs
  · simp only [analyzeFromParse, hE] at h
    obtain rfl := (Option.some.injEq _ _).mp ((Except.ok.injEq _ _).mp h)
    exact ⟨rfl, rfl, rfl⟩
  · simp [analyzeFromParse, hE] at h

theorem analyzeFromWhitespaces_ok_shape {env : Env} {node reg dm fields s m}
    (h : (analyzeFromWhitespaces env node reg dm fields s).fst = Except.ok (some m)) :
    m.pipes = EMPTY_MAP ∧ m.directives = EMPTY_MAP ∧ m.viewQueries = [] := by
  rcases hW : resolvePreserveWhitespaces env fields with e | pw
  · simp [analyzeFromWhitespaces, hW] at h
  · simp only [analyzeFromWhitespaces, hW] at h
    exact analyzeFromParse_ok_shape h

theorem analyzeFromTemplate_ok_shape {env : Env} {node reg dm fields m}
    (h : (analyzeFromTemplate env node reg dm fields).fst = Except.ok (some m)) :
    m.pipes = EMPTY_MAP ∧ m.directives = EMPTY_MAP ∧ m.viewQueries = [] := by
  rcases hT : mapGet fields "template" with _ | te
  · simp [analyzeFromTemplate, hT] at h
  · rcases hR : env.staticallyResolve te with s | b | n | _
    case str =>
      simp only [analyzeFromTemplate, hT, hR] at h
      exact analyzeFromWhitespaces_ok_shape h
    all_goals simp [analyzeFromTemplate, hT, hR] at h

theorem analyze_ok_shape {env : Env} {node dec reg m}
    (h : (analyze env node dec reg).fst = Except.ok (some m)) :
    m.pipes = EMPTY_MAP ∧ m.directives = EMPTY_MAP ∧ m.viewQueries = [] := by
  rcases dec with ⟨dname, args⟩
  rcases args with _ | l
  · simp [analyze] at h
  · rcases l with _ | ⟨meta, rest⟩
    · simp [analyze] at h
    · rcases rest with _ | ⟨m2, rest2⟩
      · rcases meta with fields | iname | oid
        case objectLiteral =>
          rcases hX :
              env.extractDirectiveMetadata node ⟨dname, some [Expression.objectLiteral fields]⟩
            with _ | dm
          · simp [analyze, hX] at h
          · simp only [analyze, hX] at h
            exact analyzeFromTemplate_ok_shape h
        all_goals simp [analyze] at h
      · simp [analyze] at h

/-! ### Stage lemmas: a thrown error leaves the registry untouched -/

theorem analyzeFromParse_error_reg {env : Env} {node reg dm s pw e}
    (h : (analyzeFromParse env node reg dm s pw).fst = Except.error e) :
    (analyzeFromParse env node reg dm s pw).snd = reg := by
  rcases hE : (env.parseTemplate s (templateUrl node) pw).errors with _ | errs
  · simp [analyzeFromParse, hE] at h
  · simp [analyzeFromParse, hE]

theorem analyzeFromWhitespaces_error_reg {env : Env} {node reg dm fields s e}
    (h : (analyzeFromWhitespaces env node reg dm fields s).fst = Except.error e) :
    (analyzeFromWhitespaces env node reg dm fields s).snd = reg := by
  rcases hW : resolvePreserveWhitespaces env fields with e' | pw
  · simp [analyzeFromWhitespaces, hW]
  · simp only [analyzeFromWhitespaces, hW] at h ⊢
    exact analyzeFromParse_error_reg h

theorem analyzeFromTemplate_error_reg {env : Env} {node reg dm fields e}
    (h : (analyzeFromTemplate env node reg dm fields).fst = Except.error e) :
    (analyzeFromTemplate env node reg dm fields).snd = reg := by
  rcases hT : mapGet fields "template" with _ | te
  · simp [analyzeFromTemplate, hT]
  · rcases hR : env.staticallyResolve te with s | b | n | _
    case str =>
      simp only [analyzeFromTemplate, hT, hR] at h ⊢
      exact analyzeFromWhitespaces_error_reg h
    all_goals simp [analyzeFromTemplate, hT, hR]

theorem analyze_error_reg {env : Env} {node dec reg e}
    (h : (analyze env node dec reg).fst = Except.error e) :
    (analyze env node dec reg).snd = reg := by
  rcases dec with ⟨dname, args⟩
  rcases args with _ | l
  · simp [analyze]
  · rcases l with _ | ⟨meta, rest⟩
    · simp [analyze]
    · rcases rest with _ | ⟨m2, rest2⟩
      · rcases meta with fields | iname | oid
        case objectLiteral =>
          rcases hX :
              env.extractDirectiveMetadata node ⟨dname, some [Expression.objectLiteral fields]⟩
            with _ | dm
          · simp [analyze, hX]
          · simp only [analyze, hX] at h ⊢
            exact analyzeFromTemplate_error_reg h
        all_goals simp [analyze]
      · simp [analyze]

/-! ### Claim theorems -/

/-- C2 (counterexample): the placeholder sibling-set fields produced by
`analyze` are not per-declaration fresh structures or an unresolved marker —
two distinct declarations receive the very same module-level `EMPTY_MAP`
object (same allocation id 0) as both `pipes` and `directives`. -/
theorem analyze_placeholders_shared_cex :
    ((analyze sampleEnv sampleNodeA sampleDec []).fst.map
        (Option.map (fun m => (m.pipes, m.directives)))
      = Except.ok (some (EMPTY_MAP, EMPTY_MAP)))
    ∧ ((analyze sampleEnv sampleNodeB sampleDec []).fst.map
        (Option.map (fun m => (m.pipes, m.directives)))
      = Except.ok (some (EMPTY_MAP, EMPTY_MAP)))
    ∧ sampleNodeA ≠ sampleNodeB :=
  ⟨rfl, rfl, by decide⟩

/-- C2 (amended): in every metadata returned by a successful `analyze`, both
placeholder sibling-set fields are the single shared module-level `EMPTY_MAP`
constant — the same (never mutated) map object for every declaration, not a
fresh structure per declaration and not an explicit unresolved marker. -/
theorem analyze_placeholders_empty_map (env : Env) (node : Node) (dec : Decorator)
    (reg : Registry) (m : R3ComponentMetadata)
    (h : (analyze env node dec reg).fst = Except.ok (some m)) :
    m.pipes = EMPTY_MAP ∧ m.directives = EMPTY_MAP :=
  ⟨(analyze_ok_shape h).1, (analyze_ok_shape h).2.1⟩

theorem analyze_placeholders_empty_map_witness :
    (analyze sampleEnv sampleNodeA sampleDec []).fst = Except.ok (some sampleMeta)
    ∧ sampleMeta.pipes = EMPTY_MAP ∧ sampleMeta.directives = EMPTY_MAP :=
  ⟨rfl, analyze_placeholders_empty_map sampleEnv sampleNodeA sampleDec [] sampleMeta rfl⟩

/-- C10: every successful analysis carries `viewQueries = []` — `analyze`
never extracts view queries. -/
theorem analyze_view_queries_empty (env : Env) (node : Node) (dec : Decorator)
    (reg : Registry) (m : R3ComponentMetadata)
    (h : (analyze env node dec reg).fst = Except.ok (some m)) :
    m.viewQueries = [] :=
  (analyze_ok_shape h).2.2

theorem analyze_view_queries_empty_witness :
    (analyze sampleEnv sampleNodeB sampleDec []).fst = Except.ok (some sampleMeta)
    ∧ sampleMeta.viewQueries = [] :=
  ⟨rfl, analyze_view_queries_empty sampleEnv sampleNodeB sampleDec [] sampleMeta rfl⟩

/-- C9: when `extractDirectiveMetadata` returns the skip sentinel
(`undefined`), `analyze` returns the empty result (`{}`, no error) at once —
whatever the later template and whitespace validations would have said — and
leaves the registry untouched. -/
theorem analyze_skip_sentinel (env : Env) (node : Node) (dec : Decorator) (reg : Registry)
    (fields : List (String × Expression))
    (h1 : dec.args = some [Expression.objectLiteral fields])
    (h2 : env.extractDirectiveMetadata node dec = none) :
    analyze env node dec reg = (Except.ok none, reg) := by
  rcases dec with ⟨dname, args⟩
  obtain rfl : args = some [Expression.objectLiteral fields] := h1
  simp [analyze, h2]

theorem analyze_skip_sentinel_witness :
    decNoTemplate.args = some [Expression.objectLiteral [("styles", Expression.other 1)]]
    ∧ skipEnv.extractDirectiveMetadata sampleNodeA decNoTemplate = none
    ∧ mapGet [("styles", Expression.other 1)] "template" = none
    ∧ analyze skipEnv sampleNodeA decNoTemplate [] = (Except.ok none, []) :=
  ⟨rfl, rfl, rfl, analyze_skip_sentinel skipEnv sampleNodeA decNoTemplate [] _ rfl rfl⟩

/-- C7: an argument count different from one (including `args === null`) is a
ConfigError, and a single non-object-literal argument is the
"must be literal" ConfigError — in both cases before any configuration field
is evaluated (the conclusion holds for every evaluator behaviour `env`, and
the registry is untouched). -/
theorem analyze_argument_validation (env : Env) (node : Node) (dec : Decorator)
    (reg : Registry) :
    ((dec.args = none →
        analyze env node dec reg = (Except.error AnalyzeError.incorrectArgCount, reg))
    ∧ (∀ args, dec.args = some args → args.length ≠ 1 →
        analyze env node dec reg = (Except.error AnalyzeError.incorrectArgCount, reg)))
    ∧ (∀ meta, dec.args = some [meta] →
        (∀ fields, meta ≠ Expression.objectLiteral fields) →
        analyze env node dec reg = (Except.error AnalyzeError.argMustBeLiteral, reg)) := by
  rcases dec with ⟨dname, args⟩
  refine ⟨⟨?_, ?_⟩, ?_⟩
  · rintro rfl
    simp [analyze]
  · rintro args' rfl hlen
    rcases args' with _ | ⟨a, _ | ⟨b, t⟩⟩
    · simp [analyze]
    · exact absurd rfl hlen
    · simp [analyze]
  · rintro meta rfl hnl
    rcases meta with fields | iname | oid
    · exact absurd rfl (hnl fields)
    · simp [analyze]
    · simp [analyze]

theorem analyze_argument_validation_witness :
    decNoArgs.args = none
    ∧ analyze sampleEnv sampleNodeA decNoArgs []
        = (Except.error AnalyzeError.incorrectArgCount, [])
    ∧ decTwoArgs.args = some [Expression.other 1, Expression.other 2]
    ∧ analyze sampleEnv sampleNodeA decTwoArgs []
        = (Except.error AnalyzeError.incorrectArgCount, [])
    ∧ analyze sampleEnv sampleNodeA decIdentArg []
        = (Except.error AnalyzeError.argMustBeLiteral, []) := by
  refine ⟨rfl, ?_, rfl, ?_, ?_⟩
  · exact (analyze_argument_validation sampleEnv sampleNodeA decNoArgs []).1.1 rfl
  · exact (analyze_argument_validation sampleEnv sampleNodeA decTwoArgs []).1.2 _ rfl (by decide)
  · exact (analyze_argument_validation sampleEnv sampleNodeA decIdentArg []).2 _ rfl
      (fun fields hEq => Expression.noConfusion hEq)

/-- C3: when `analyze` fails with any thrown error (ConfigError or
TemplateParseError), the registry is exactly as it was received — in
particular a declaration not registered before is not registered after.
Selector registration happens only after every validation has succeeded. -/
theorem analyze_error_no_registration (env : Env) (node : Node) (dec : Decorator)
    (reg : Registry) (e : AnalyzeError)
    (h : (analyze env node dec reg).fst = Except.error e) :
    (analyze env node dec reg).snd = reg
    ∧ (lookupSelector reg node.id = none →
        lookupSelector (analyze env node dec reg).snd node.id = none) := by
  have hs := analyze_error_reg h
  exact ⟨hs, fun hnone => by rw [hs]; exact hnone⟩

theorem analyze_error_no_registration_witness :
    (analyze sampleEnv sampleNodeA decNoTemplate []).fst
      = Except.error AnalyzeError.missingTemplate
    ∧ (analyze sampleEnv sampleNodeA decNoTemplate []).snd = []
    ∧ lookupSelector (analyze sampleEnv sampleNodeA decNoTemplate []).snd sampleNodeA.id
      = none := by
  refine ⟨rfl, ?_, ?_⟩
  · exact (analyze_error_no_registration sampleEnv sampleNodeA decNoTemplate [] _ rfl).1
  · exact (analyze_error_no_registration sampleEnv sampleNodeA decNoTemplate [] _ rfl).2 rfl

/-- C6: with the argument checks passed and the declaration not skipped — a
missing `template` field is a ConfigError; a `template` field not statically
resolving to a string is a ConfigError whose message carries the
declaration's name; a string-valued `template` lets analysis proceed to the
rest of the template pipeline. -/
theorem analyze_template_field_validation (env : Env) (node : Node) (dec : Decorator)
    (reg : Registry) (fields : List (String × Expression)) (dm : R3DirectiveMetadata)
    (h1 : dec.args = some [Expression.objectLiteral fields])
    (h2 : env.extractDirectiveMetadata node dec = some dm) :
    (mapGet fields "template" = none →
        analyze env node dec reg = (Except.error AnalyzeError.missingTemplate, reg))
    ∧ (∀ te, mapGet fields "template" = some te →
        (∀ s, env.staticallyResolve te ≠ ResolvedValue.str s) →
        analyze env node dec reg
          = (Except.error (AnalyzeError.templateNotString node.name), reg)
        ∧ ∃ p, (AnalyzeError.templateNotString node.name).message = p ++ node.name)
    ∧ (∀ te s, mapGet fields "template" = some te →
        env.staticallyResolve te = ResolvedValue.str s →
        analyze env node dec reg = analyzeFromWhitespaces env node reg dm fields s) := by
  rcases dec with ⟨dname, args⟩
  obtain rfl : args = some [Expression.objectLiteral fields] := h1
  refine ⟨?_, ?_, ?_⟩
  · intro hT
    simp [analyze, h2, analyzeFromTemplate, hT]
  · intro te hT hns
    constructor
    · rcases hR : env.staticallyResolve te with s | b | n | _
      · exact absurd hR (hns s)
      all_goals simp [analyze, h2, analyzeFromTemplate, hT, hR]
    · exact ⟨"Template must statically resolve to a string: ", rfl⟩
  · intro te s hT hR
    simp [analyze, h2, analyzeFromTemplate, hT, hR]

theorem analyze_template_field_validation_witness :
    sampleEnv.staticallyResolve (Expression.other 11) = ResolvedValue.num 3
    ∧ analyze sampleEnv sampleNodeA decBadTemplate []
        = (Except.error (AnalyzeError.templateNotString "Foo"), [])
    ∧ (∃ p, (AnalyzeError.templateNotString "Foo").message = p ++ "Foo")
    ∧ analyze sampleEnv sampleNodeA decNoTemplate []
        = (Except.error AnalyzeError.missingTemplate, []) := by
  have hBad := (analyze_template_field_validation sampleEnv sampleNodeA decBadTemplate []
      [("template", Expression.other 11)] ⟨some "app-foo", 7⟩ rfl rfl).2.1
      (Expression.other 11) rfl (fun s hs => ResolvedValue.noConfusion hs)
  have hMiss := (analyze_template_field_validation sampleEnv sampleNodeA decNoTemplate []
      [("styles", Expression.other 1)] ⟨some "app-foo", 7⟩ rfl rfl).1 rfl
  exact ⟨rfl, hBad.1, hBad.2, hMiss⟩

/-- C8: the whitespace option handed to the template parser defaults to
`false` when the `preserveWhitespaces` field is absent; a present field not
resolving to a boolean is a ConfigError; a present boolean is passed through
exactly (`analyzeFromParse` hands its `preserveWhitespaces` argument directly
to `env.parseTemplate`). -/
theorem analyze_preserve_whitespaces (env : Env) (node : Node) (dec : Decorator)
    (reg : Registry) (fields : List (String × Expression)) (dm : R3DirectiveMetadata)
    (te : Expression) (s : String)
    (h1 : dec.args = some [Expression.objectLiteral fields])
    (h2 : env.extractDirectiveMetadata node dec = some dm)
    (h3 : mapGet fields "template" = some te)
    (h4 : env.staticallyResolve te = ResolvedValue.str s) :
    (mapGet fields "preserveWhitespaces" = none →
        analyze env node dec reg = analyzeFromParse env node reg dm s false)
    ∧ (∀ e, mapGet fields "preserveWhitespaces" = some e →
        (∀ b, env.staticallyResolve e ≠ ResolvedValue.bool b) →
        analyze env node dec reg = (Except.error AnalyzeError.whitespaceNotBoolean, reg))
    ∧ (∀ e b, mapGet fields "preserveWhitespaces" = some e →
        env.staticallyResolve e = ResolvedValue.bool b →
        analyze env node dec reg = analyzeFromParse env node reg dm s b) := by
  rcases dec with ⟨dname, args⟩
  obtain rfl : args = some [Expression.objectLiteral fields] := h1
  refine ⟨?_, ?_, ?_⟩
  · intro hW
    simp [analyze, h2, analyzeFromTemplate, h3, h4, analyzeFromWhitespaces,
      resolvePreserveWhitespaces, hW]
  · intro e hW hnb
    rcases hR : env.staticallyResolve e with s' | b | n | _
    · simp [analyze, h2, analyzeFromTemplate, h3, h4, analyzeFromWhitespaces,
        resolvePreserveWhitespaces, hW, hR]
    · exact absurd hR (hnb b)
    · simp [analyze, h2, analyzeFromTemplate, h3, h4, analyzeFromWhitespaces,
        resolvePreserveWhitespaces, hW, hR]
    · simp [analyze, h2, analyzeFromTemplate, h3, h4, analyzeFromWhitespaces,
        resolvePreserveWhitespaces, hW, hR]
  · intro e b hW hR
    simp [analyze, h2, analyzeFromTemplate, h3, h4, analyzeFromWhitespaces,
      resolvePreserveWhitespaces, hW, hR]

theorem analyze_preserve_whitespaces_witness :
    analyze sampleEnv sampleNodeA sampleDec []
      = analyzeFromParse sampleEnv sampleNodeA [] ⟨some "app-foo", 7⟩ "<div></div>" false
    ∧ sampleEnv.staticallyResolve (Expression.other 12) = ResolvedValue.bool true
    ∧ analyze sampleEnv sampleNodeA decWsBool []
      = analyzeFromParse sampleEnv sampleNodeA [] ⟨some "app-foo", 7⟩ "<div></div>" true
    ∧ analyze sampleEnv sampleNodeA decWsBad []
      = (Except.error AnalyzeError.whitespaceNotBoolean, []) := by
  refine ⟨?_, rfl, ?_, ?_⟩
  · exact (analyze_preserve_whitespaces sampleEnv sampleNodeA sampleDec []
      [("template", Expression.other 10)] ⟨some "app-foo", 7⟩ (Expression.other 10)
      "<div></div>" rfl rfl rfl rfl).1 rfl
  · exact (analyze_preserve_whitespaces sampleEnv sampleNodeA decWsBool []
      [("template", Expression.other 10), ("preserveWhitespaces", Expression.other 12)]
      ⟨some "app-foo", 7⟩ (Expression.other 10) "<div></div>" rfl rfl rfl rfl).2.2
      (Expression.other 12) true rfl rfl
  · exact (analyze_preserve_whitespaces sampleEnv sampleNodeA decWsBad []
      [("template", Expression.other 10), ("preserveWhitespaces", Expression.other 13)]
      ⟨some "app-foo", 7⟩ (Expression.other 10) "<div></div>" rfl rfl rfl rfl).2.1
      (Expression.other 13) rfl (fun b hb => ResolvedValue.noConfusion hb)

/-- C5: when the parser reports diagnostics, `analyze` fails with a single
aggregated TemplateParseError: every diagnostic message occurs inside the
error's message (joined with `", "`), no metadata — hence no partial
template AST — is returned, and the registry is untouched. -/
theorem analyze_template_parse_error_aggregates (env : Env) (node : Node) (dec : Decorator)
    (reg : Registry) (fields : List (String × Expression)) (dm : R3DirectiveMetadata)
    (te : Expression) (s : String) (pw : Bool) (msgs : List String) (ast : Nat)
    (h1 : dec.args = some [Expression.objectLiteral fields])
    (h2 : env.extractDirectiveMetadata node dec = some dm)
    (h3 : mapGet fields "template" = some te)
    (h4 : env.staticallyResolve te = ResolvedValue.str s)
    (h5 : resolvePreserveWhitespaces env fields = Except.ok pw)
    (h6 : env.parseTemplate s (templateUrl node) pw = ⟨some msgs, ast⟩) :
    analyze env node dec reg = (Except.error (AnalyzeError.templateParse msgs), reg)
    ∧ ∀ m ∈ msgs, ∃ p q, (AnalyzeError.templateParse msgs).message = p ++ m ++ q := by
  rcases dec with ⟨dname, args⟩
  obtain rfl : args = some [Expression.objectLiteral fields] := h1
  constructor
  · simp [analyze, h2, analyzeFromTemplate, h3, h4, analyzeFromWhitespaces, h5,
      analyzeFromParse, h6]
  · intro m hm
    obtain ⟨p, q, hpq⟩ := joinComma_mem_split m msgs hm
    refine ⟨"Errors parsing template: " ++ p, q, ?_⟩
    show "Errors parsing template: " ++ joinComma msgs = _
    rw [hpq]
    simp only [str_append_assoc]

theorem analyze_template_parse_error_aggregates_witness :
    parseErrEnv.parseTemplate "<div></div>" (templateUrl sampleNodeA) false
      = ⟨some ["unclosed tag div"], 0⟩
    ∧ analyze parseErrEnv sampleNodeA sampleDec []
      = (Except.error (AnalyzeError.templateParse ["unclosed tag div"]), [])
    ∧ ∀ m ∈ ["unclosed tag div"], ∃ p q,
        (AnalyzeError.templateParse ["unclosed tag div"]).message = p ++ m ++ q := by
  have h := analyze_template_parse_error_aggregates parseErrEnv sampleNodeA sampleDec []
    [("template", Expression.other 10)] ⟨some "app-foo", 7⟩ (Expression.other 10)
    "<div></div>" false ["unclosed tag div"] 0 rfl rfl rfl rfl rfl rfl
  exact ⟨rfl, h.1, h.2⟩

/-- C1: the metadata `compile` hands to the code generator retains every
non-sibling-set field exactly as analyzed; when a compilation scope is found
only `pipes` and `directives` are overwritten with the scope's sets, and when
none is found `compile` still produces a `CompileResult`, from the unchanged
analysis (sibling sets stay as the empty placeholders `analyze` put there). -/
theorem compile_merge_frame (env : Env) (node : Node) (analysis : R3ComponentMetadata) :
    (∀ scope, env.lookupCompilationScope node = some scope →
      (mergeScope analysis (some scope)).selector = analysis.selector
      ∧ (mergeScope analysis (some scope)).rest = analysis.rest
      ∧ (mergeScope analysis (some scope)).template = analysis.template
      ∧ (mergeScope analysis (some scope)).viewQueries = analysis.viewQueries
      ∧ (mergeScope analysis (some scope)).pipes = scope.pipes
      ∧ (mergeScope analysis (some scope)).directives = scope.directives
      ∧ compile env node analysis
          = packageResult (env.compileComponentFromMetadata (mergeScope analysis (some scope))))
    ∧ (env.lookupCompilationScope node = none →
      mergeScope analysis (env.lookupCompilationScope node) = analysis
      ∧ compile env node analysis
          = packageResult (env.compileComponentFromMetadata analysis)) := by
  constructor
  · intro scope hS
    refine ⟨rfl, rfl, rfl, rfl, rfl, rfl, ?_⟩
    simp [compile, hS]
  · intro hS
    refine ⟨?_, ?_⟩
    · rw [hS]
      rfl
    · simp [compile, hS, mergeScope]

theorem compile_merge_frame_witness :
    sampleEnv.lookupCompilationScope sampleNodeA = some sampleScope
    ∧ (mergeScope sampleMeta (some sampleScope)).pipes = sampleScope.pipes
    ∧ (mergeScope sampleMeta (some sampleScope)).template = sampleMeta.template
    ∧ sampleEnv.lookupCompilationScope sampleNodeB = none
    ∧ compile sampleEnv sampleNodeB sampleMeta
      = packageResult (sampleEnv.compileComponentFromMetadata sampleMeta) := by
  have hA := (compile_merge_frame sampleEnv sampleNodeA sampleMeta).1 sampleScope rfl
  have hB := (compile_merge_frame sampleEnv sampleNodeB sampleMeta).2 rfl
  exact ⟨rfl, hA.2.2.2.2.1, hA.2.2.1, rfl, hB.2⟩

/-! ### Determinism: congruence of the pipeline in the collaborators -/

theorem resolvePreserveWhitespaces_congr {env1 env2 : Env}
    (h : env1.staticallyResolve = env2.staticallyResolve)
    (fields : List (String × Expression)) :
    resolvePreserveWhitespaces env1 fields = resolvePreserveWhitespaces env2 fields := by
  unfold resolvePreserveWhitespaces
  rw [h]

theorem analyzeFromParse_fst_congr {env1 env2 : Env} {node dm s pw} (reg1 reg2 : Registry)
    (hP : env1.parseTemplate = env2.parseTemplate) :
    (analyzeFromParse env1 node reg1 dm s pw).fst
      = (analyzeFromParse env2 node reg2 dm s pw).fst := by
  simp only [analyzeFromParse, hP]
  rcases (env2.parseTemplate s (templateUrl node) pw).errors with _ | errs <;> simp

theorem analyzeFromWhitespaces_fst_congr {env1 env2 : Env} {node dm fields s}
    (reg1 reg2 : Registry)
    (hR : env1.staticallyResolve = env2.staticallyResolve)
    (hP : env1.parseTemplate = env2.parseTemplate) :
    (analyzeFromWhitespaces env1 node reg1 dm fields s).fst
      = (analyzeFromWhitespaces env2 node reg2 dm fields s).fst := by
  simp only [analyzeFromWhitespaces, resolvePreserveWhitespaces_congr hR fields]
  rcases resolvePreserveWhitespaces env2 fields with e | pw
  · simp
  · exact analyzeFromParse_fst_congr reg1 reg2 hP

theorem analyzeFromTemplate_fst_congr {env1 env2 : Env} {node dm fields}
    (reg1 reg2 : Registry)
    (hR : env1.staticallyResolve = env2.staticallyResolve)
    (hP : env1.parseTemplate = env2.parseTemplate) :
    (analyzeFromTemplate env1 node reg1 dm fields).fst
      = (analyzeFromTemplate env2 node reg2 dm fields).fst := by
  simp only [analyzeFromTemplate]
  rw [hR]
  rcases hT : mapGet fields "template" with _ | te
  · simp [hT]
  · simp only [hT]
    rcases hR2 : env2.staticallyResolve te with s | b | n | _
    · simp only [hR2]
      exact analyzeFromWhitespaces_fst_congr reg1 reg2 hR hP
    · simp [hR2]
    · simp [hR2]
    · simp [hR2]

theorem analyze_fst_congr {env1 env2 : Env} {node dec} (reg1 reg2 : Registry)
    (hR : env1.staticallyResolve = env2.staticallyResolve)
    (hX : env1.extractDirectiveMetadata node dec = env2.extractDirectiveMetadata node dec)
    (hP : env1.parseTemplate = env2.parseTemplate) :
    (analyze env1 node dec reg1).fst = (analyze env2 node dec reg2).fst := by
  rcases dec with ⟨dname, args⟩
  rcases args with _ | l
  · simp [analyze]
  · rcases l with _ | ⟨meta, rest⟩
    · simp [analyze]
    · rcases rest with _ | ⟨m2, rest2⟩
      · rcases meta with fields | iname | oid
        case objectLiteral =>
          simp only [analyze]
          rw [hX]
          rcases env2.extractDirectiveMetadata node ⟨dname, some [Expression.objectLiteral fields]⟩
            with _ | dm
          · simp
          · exact analyzeFromTemplate_fst_congr reg1 reg2 hR hP
        all_goals simp [analyze]
      · simp [analyze]

/-- C4: determinism of the pipeline. Two analyze→compile runs on the same
declaration and decorator, under collaborators that behave identically on
that declaration (they may live in different compilation units: the
registries may differ arbitrarily), produce structurally identical
`CompileResult`s. -/
theorem pipeline_deterministic (env1 env2 : Env) (node : Node) (dec : Decorator)
    (reg1 reg2 : Registry)
    (h1 : env1.staticallyResolve = env2.staticallyResolve)
    (h2 : env1.extractDirectiveMetadata node dec = env2.extractDirectiveMetadata node dec)
    (h3 : env1.parseTemplate = env2.parseTemplate)
    (h4 : env1.lookupCompilationScope node = env2.lookupCompilationScope node)
    (h5 : env1.compileComponentFromMetadata = env2.compileComponentFromMetadata) :
    analyzeThenCompile env1 node dec reg1 = analyzeThenCompile env2 node dec reg2 := by
  unfold analyzeThenCompile
  rw [analyze_fst_congr reg1 reg2 h1 h2 h3]
  rcases (analyze env2 node dec reg2).fst with e | o
  · rfl
  · rcases o with _ | m
    · rfl
    · simp only [compile, h4, h5]

theorem pipeline_deterministic_witness :
    analyzeThenCompile sampleEnv sampleNodeA sampleDec []
      = analyzeThenCompile sampleEnv sampleNodeA sampleDec [(9, "other")] :=
  pipeline_deterministic sampleEnv sampleEnv sampleNodeA sampleDec [] [(9, "other")]
    rfl rfl rfl rfl rfl

end NgtscComponent
